import Mathlib

/-!
Verification of the greeMan closed-loop temperature controller
(src/scripts/controller.py): the hysteresis decision engine, the
restricted-time-window check, belief/actuator reconciliation, the
actuator push, and one full control-loop cycle.

Temperatures are modelled as rationals; Python floats at the precision
the controller uses (tenths of a degree) compare exactly, so the order
structure is faithful. A time of day parsed from an HH:MM string is a
pair of hour and minute, compared lexicographically as Python compares
datetime.time values.
-/

/-- Time of day as produced by strptime with the HH:MM format. -/
structure Time where
  hour : Nat
  minute : Nat
deriving DecidableEq, Repr

namespace Time

/-- Strict comparison of times of day, lexicographic as in Python. -/
def lt (a b : Time) : Prop :=
  a.hour < b.hour ∨ (a.hour = b.hour ∧ a.minute < b.minute)

/-- Non-strict comparison of times of day, lexicographic as in Python. -/
def le (a b : Time) : Prop :=
  a.hour < b.hour ∨ (a.hour = b.hour ∧ a.minute ≤ b.minute)

instance (a b : Time) : Decidable (lt a b) :=
  inferInstanceAs (Decidable (a.hour < b.hour ∨ (a.hour = b.hour ∧ a.minute < b.minute)))

instance (a b : Time) : Decidable (le a b) :=
  inferInstanceAs (Decidable (a.hour < b.hour ∨ (a.hour = b.hour ∧ a.minute ≤ b.minute)))

theorem not_lt_iff_le (a b : Time) : ¬ lt a b ↔ le b a := by
  unfold lt le
  constructor
  · intro h
    rcases Nat.lt_trichotomy a.hour b.hour with h1 | h1 | h1
    · exact absurd (Or.inl h1) h
    · by_cases h2 : a.minute < b.minute
      · exact absurd (Or.inr ⟨h1, h2⟩) h
      · exact Or.inr ⟨h1.symm, Nat.le_of_not_lt h2⟩
    · exact Or.inl h1
  · intro h hc
    rcases h with h | ⟨h1, h2⟩
    · rcases hc with hc | ⟨hc, _⟩
      · exact absurd (Nat.lt_trans h hc) (Nat.lt_irrefl _)
      · exact absurd h (hc ▸ Nat.lt_irrefl _)
    · rcases hc with hc | ⟨_, hc2⟩
      · exact absurd hc (h1 ▸ Nat.lt_irrefl _)
      · exact absurd hc2 (Nat.not_lt.mpr h2)

end Time

/-- Loaded configuration: the two temperature thresholds and the
restricted window bounds parsed from restricted_time start and end. -/
structure Config where
  temperature_on : ℚ
  temperature_off : ℚ
  restricted_start : Time
  restricted_end : Time
deriving DecidableEq, Repr

/-- Default configuration returned by load_config when the file is
unreadable: temperature_on 24.0, temperature_off 22.5, window 21:00 to
10:00. -/
def default_config : Config :=
  { temperature_on := 24, temperature_off := 45 / 2,
    restricted_start := ⟨21, 0⟩, restricted_end := ⟨10, 0⟩ }

/-- is_time_restricted from controller.py lines 128 to 141: if the
window wraps midnight (start strictly after end) membership is now at
or after start, or now at or before end; otherwise membership is start
at or before now at or before end. -/
def is_time_restricted (config : Config) (now : Time) : Bool :=
  let start_time := config.restricted_start
  let end_time := config.restricted_end
  if Time.lt end_time start_time then
    decide (Time.le start_time now) || decide (Time.le now end_time)
  else
    decide (Time.le start_time now) && decide (Time.le now end_time)

/-- The three possible outcomes of one decision step of the loop. -/
inductive Decision where
  | TurnOn
  | TurnOff
  | NoChange
deriving DecidableEq, Repr

/-- The decision branch of temperature_control_loop, lines 177 to 187:
turn on when the reading is strictly above temperature_on, the actuator
is off and the time is not restricted; otherwise turn off when the
actuator is on and the reading is strictly below temperature_off or the
time is restricted; otherwise leave the power state alone. -/
def decideAction (current_temp temp_on temp_off : ℚ)
    (actual_power time_restricted : Bool) : Decision :=
  if current_temp > temp_on ∧ actual_power = false ∧ time_restricted = false then
    Decision.TurnOn
  else if (current_temp < temp_off ∨ time_restricted = true) ∧ actual_power = true then
    Decision.TurnOff
  else
    Decision.NoChange

/-- The controller belief: the current_state global of controller.py,
a power flag and the target temperature used when turning on. -/
structure CurrentState where
  power : Bool
  target_temp : ℚ
deriving DecidableEq, Repr

/-- Initial value of the current_state global, lines 33 to 36. -/
def initial_state : CurrentState :=
  { power := false, target_temp := 22 }

/-- set_ac_state, lines 112 to 127: push the desired power to the
device; only when the push raises no exception is the belief power
updated to the pushed value. -/
def set_ac_state (state : CurrentState) (power : Bool) (push_ok : Bool) : CurrentState :=
  if push_ok then { state with power := power } else state

/-- Reconciliation, lines 161 to 168: a successful device.update_state
makes the reported power the belief power; on failure the cached belief
power is kept (the code assigns it back to itself). -/
def reconcile (state : CurrentState) (reported : Option Bool) : CurrentState :=
  match reported with
  | some actual_power => { state with power := actual_power }
  | none => state

/-- Everything one cycle of the loop produces: the new belief, the new
actuator power, the decision taken (none when the sensor faulted and
the decision step was skipped) and whether a push was attempted. -/
structure CycleResult where
  state : CurrentState
  ac_power : Bool
  decision : Option Decision
  push_attempted : Bool
deriving DecidableEq, Repr

/-- One iteration of temperature_control_loop, lines 143 to 189, with
the external effects passed in as data: the sensor reading (none on
SNMP fault), the actuator read outcome (none on update_state failure),
whether the push would succeed, and the wall clock. On a sensor fault
the body continues straight to the sleep; otherwise it reconciles,
checks the restricted window, decides, and pushes only on TurnOn or
TurnOff, the actuator power changing only when the push succeeds. -/
def cycle (config : Config) (state : CurrentState) (ac_power : Bool)
    (sensor : Option ℚ) (reported : Option Bool) (push_ok : Bool)
    (now : Time) : CycleResult :=
  match sensor with
  | none =>
      { state := state, ac_power := ac_power, decision := none, push_attempted := false }
  | some current_temp =>
      let state1 := reconcile state reported
      let time_restricted := is_time_restricted config now
      match decideAction current_temp config.temperature_on config.temperature_off
          state1.power time_restricted with
      | Decision.TurnOn =>
          { state := set_ac_state state1 true push_ok,
            ac_power := if push_ok then true else ac_power,
            decision := some Decision.TurnOn,
            push_attempted := true }
      | Decision.TurnOff =>
          { state := set_ac_state state1 false push_ok,
            ac_power := if push_ok then false else ac_power,
            decision := some Decision.TurnOff,
            push_attempted := true }
      | Decision.NoChange =>
          { state := state1, ac_power := ac_power,
            decision := some Decision.NoChange,
            push_attempted := false }

/-- Claim C1: the decision engine returns TurnOn if and only if the
reading is strictly above temperature_on, the actuator power is off and
the time is not restricted. -/
theorem decideAction_turnOn_iff (current_temp temp_on temp_off : ℚ)
    (actual_power time_restricted : Bool) :
    decideAction current_temp temp_on temp_off actual_power time_restricted =
      Decision.TurnOn ↔
    (current_temp > temp_on ∧ actual_power = false ∧ time_restricted = false) := by
  unfold decideAction
  split_ifs with h1 h2 <;> simp_all

/-- Claim C2: the decision engine returns TurnOff if and only if the
actuator power is on and the reading is strictly below temperature_off
or the time is restricted. -/
theorem decideAction_turnOff_iff (current_temp temp_on temp_off : ℚ)
    (actual_power time_restricted : Bool) :
    decideAction current_temp temp_on temp_off actual_power time_restricted =
      Decision.TurnOff ↔
    (actual_power = true ∧ (current_temp < temp_off ∨ time_restricted = true)) := by
  unfold decideAction
  split_ifs with h1 h2
  · simp [h1.2.1]
  · exact iff_of_true rfl ⟨h2.2, h2.1⟩
  · constructor
    · intro h
      exact absurd h (by simp)
    · intro h
      exact absurd ⟨h.2, h.1⟩ h2

/-- Claim C3: inside the closed hysteresis band, with the time not
restricted, the decision is NoChange for either power state; in
particular a reading exactly at temperature_on with power off, or
exactly at temperature_off with power on, changes nothing, the
comparisons being strict. -/
theorem decideAction_band_noChange (temp_on temp_off : ℚ) :
    (∀ (current_temp : ℚ) (actual_power : Bool),
       temp_off ≤ current_temp → current_temp ≤ temp_on →
       decideAction current_temp temp_on temp_off actual_power false =
         Decision.NoChange) ∧
    decideAction temp_on temp_on temp_off false false = Decision.NoChange ∧
    decideAction temp_off temp_on temp_off true false = Decision.NoChange := by
  refine ⟨fun current_temp actual_power h1 h2 => ?_, ?_, ?_⟩ <;>
    · unfold decideAction
      split_ifs with h1 h2 <;> simp_all <;> linarith

/-- Claim C3 witness: a concrete reading of 23 inside the default band
from 22.5 to 24 with the actuator on yields NoChange. -/
theorem decideAction_band_noChange_witness :
    (45 / 2 : ℚ) ≤ 23 ∧ (23 : ℚ) ≤ 24 ∧
    decideAction 23 24 (45 / 2) true false = Decision.NoChange :=
  ⟨by norm_num, by norm_num,
    (decideAction_band_noChange 24 (45 / 2)).1 23 true (by norm_num) (by norm_num)⟩

/-- Overnight window from the default configuration: 21:00 to 10:00. -/
def overnight_config : Config :=
  { temperature_on := 24, temperature_off := 45 / 2,
    restricted_start := ⟨21, 0⟩, restricted_end := ⟨10, 0⟩ }

/-- Same-day window 13:00 to 15:00. -/
def sameday_config : Config :=
  { temperature_on := 24, temperature_off := 45 / 2,
    restricted_start := ⟨13, 0⟩, restricted_end := ⟨15, 0⟩ }

/-- Claim C4: when start is strictly after end the window wraps
midnight and membership is now at or after start or now at or before
end; when start is at or before end membership is start at or before
now at or before end; concretely, with window 21:00 to 10:00, 23:00 is
restricted and 12:00 is not, and with window 13:00 to 15:00, 14:00 is
restricted and 16:00 is not. -/
theorem is_time_restricted_correct (config : Config) (now : Time) :
    ((Time.lt config.restricted_end config.restricted_start →
        (is_time_restricted config now = true ↔
          (Time.le config.restricted_start now ∨ Time.le now config.restricted_end))) ∧
     (Time.le config.restricted_start config.restricted_end →
        (is_time_restricted config now = true ↔
          (Time.le config.restricted_start now ∧ Time.le now config.restricted_end)))) ∧
    (is_time_restricted overnight_config ⟨23, 0⟩ = true ∧
     is_time_restricted overnight_config ⟨12, 0⟩ = false ∧
     is_time_restricted sameday_config ⟨14, 0⟩ = true ∧
     is_time_restricted sameday_config ⟨16, 0⟩ = false) := by
  refine ⟨⟨fun hwrap => ?_, fun hno => ?_⟩, by decide, by decide, by decide, by decide⟩
  · unfold is_time_restricted
    rw [if_pos hwrap]
    simp
  · unfold is_time_restricted
    rw [if_neg ((Time.not_lt_iff_le _ _).mpr hno)]
    simp

/-- Claim C4 witness: in the overnight window 21:00 to 10:00, 23:00 is
restricted, obtained from the wrap-around clause of the theorem. -/
theorem is_time_restricted_correct_witness :
    Time.lt overnight_config.restricted_end overnight_config.restricted_start ∧
    is_time_restricted overnight_config ⟨23, 0⟩ = true :=
  ⟨by decide,
    ((is_time_restricted_correct overnight_config ⟨23, 0⟩).1.1 (by decide)).mpr
      (Or.inl (by decide))⟩

/-- Claim C5: a cycle whose sensor read faults takes no decision,
attempts no push, and leaves belief and actuator state exactly as they
were. -/
theorem cycle_sensor_fault (config : Config) (state : CurrentState) (ac_power : Bool)
    (reported : Option Bool) (push_ok : Bool) (now : Time) :
    cycle config state ac_power none reported push_ok now =
      { state := state, ac_power := ac_power, decision := none,
        push_attempted := false } := rfl

/-- Claim C6: reconciliation after a successful actuator read adopts
the reported power and keeps the rest of the belief; after a failed
read it returns the belief unchanged. -/
theorem reconcile_correct (state : CurrentState) (actual_power : Bool) :
    (reconcile state (some actual_power)).power = actual_power ∧
    (reconcile state (some actual_power)).target_temp = state.target_temp ∧
    reconcile state none = state :=
  ⟨rfl, rfl, rfl⟩

/-- Claim C7: a failed push leaves the belief untouched, so the same
decision can recur next cycle; a successful push makes the belief power
exactly the pushed power. -/
theorem set_ac_state_correct (state : CurrentState) (power : Bool) :
    set_ac_state state power false = state ∧
    (set_ac_state state power true).power = power ∧
    (set_ac_state state power true).target_temp = state.target_temp := by
  refine ⟨?_, ?_, ?_⟩ <;> simp [set_ac_state]

/-- A degenerate configuration the code never validates against:
temperature_off above temperature_on, so the TurnOn and TurnOff
conditions overlap. -/
def degenerate_config : Config :=
  { temperature_on := 20, temperature_off := 30,
    restricted_start := ⟨21, 0⟩, restricted_end := ⟨10, 0⟩ }

/-- Helper: with a well-formed band, a cycle that just decided TurnOn
decides NoChange once the power reads back as on. -/
theorem decideAction_on_stable (current_temp temp_on temp_off : ℚ)
    (actual_power time_restricted : Bool)
    (hband : temp_off ≤ temp_on)
    (hd : decideAction current_temp temp_on temp_off actual_power time_restricted =
      Decision.TurnOn) :
    decideAction current_temp temp_on temp_off true time_restricted =
      Decision.NoChange := by
  unfold decideAction at hd ⊢
  split_ifs at hd with h1 h2
  have hc1 : ¬(current_temp > temp_on ∧ (true : Bool) = false ∧
      time_restricted = false) :=
    fun hc => Bool.noConfusion hc.2.1
  have hc2 : ¬((current_temp < temp_off ∨ time_restricted = true) ∧
      (true : Bool) = true) := by
    intro hc
    rcases hc.1 with hc3 | hc3
    · exact absurd (lt_trans hc3 (lt_of_le_of_lt hband h1.1)) (lt_irrefl _)
    · rw [h1.2.2] at hc3
      exact Bool.noConfusion hc3
  rw [if_neg hc1, if_neg hc2]

/-- Helper: with a well-formed band, a cycle that just decided TurnOff
decides NoChange once the power reads back as off. -/
theorem decideAction_off_stable (current_temp temp_on temp_off : ℚ)
    (actual_power time_restricted : Bool)
    (hband : temp_off ≤ temp_on)
    (hd : decideAction current_temp temp_on temp_off actual_power time_restricted =
      Decision.TurnOff) :
    decideAction current_temp temp_on temp_off false time_restricted =
      Decision.NoChange := by
  unfold decideAction at hd ⊢
  split_ifs at hd with h1 h2
  have hc1 : ¬(current_temp > temp_on ∧ (false : Bool) = false ∧
      time_restricted = false) := by
    intro hc
    rcases h2.1 with h5 | h5
    · exact absurd (lt_trans hc.1 (lt_of_lt_of_le h5 hband)) (lt_irrefl _)
    · rw [hc.2.2] at h5
      exact Bool.noConfusion h5
  have hc2 : ¬((current_temp < temp_off ∨ time_restricted = true) ∧
      (false : Bool) = true) :=
    fun hc => Bool.noConfusion hc.2
  rw [if_neg hc1, if_neg hc2]

/-- Claim C8 counterexample: with the degenerate configuration, reading
25, clock 14:00, belief and actuator off, a truthful actuator read and
a successful push, the first cycle decides TurnOn and the second cycle,
run on identical inputs with the pushed state reported back, decides
TurnOff and pushes again instead of NoChange. -/
theorem cycle_idempotent_counterexample :
    (cycle degenerate_config initial_state false (some 25) (some false) true
        ⟨14, 0⟩).decision = some Decision.TurnOn ∧
    (cycle degenerate_config
        (cycle degenerate_config initial_state false (some 25) (some false) true
          ⟨14, 0⟩).state
        (cycle degenerate_config initial_state false (some 25) (some false) true
          ⟨14, 0⟩).ac_power
        (some 25)
        (some (cycle degenerate_config initial_state false (some 25) (some false) true
          ⟨14, 0⟩).ac_power)
        true ⟨14, 0⟩).decision = some Decision.TurnOff ∧
    (cycle degenerate_config
        (cycle degenerate_config initial_state false (some 25) (some false) true
          ⟨14, 0⟩).state
        (cycle degenerate_config initial_state false (some 25) (some false) true
          ⟨14, 0⟩).ac_power
        (some 25)
        (some (cycle degenerate_config initial_state false (some 25) (some false) true
          ⟨14, 0⟩).ac_power)
        true ⟨14, 0⟩).push_attempted = true := by
  refine ⟨by decide, by decide, by decide⟩

/-- Claim C8 (amended): provided the configured band is well formed
(temperature_off at most temperature_on), running the cycle twice with
identical inputs, a truthful actuator read, a successful first push and
the pushed state reported back yields NoChange and no push on the
second cycle. -/
theorem cycle_idempotent (config : Config) (state : CurrentState) (ac_power : Bool)
    (current_temp : ℚ) (now : Time)
    (hband : config.temperature_off ≤ config.temperature_on) :
    (cycle config
        (cycle config state ac_power (some current_temp) (some ac_power) true now).state
        (cycle config state ac_power (some current_temp) (some ac_power) true now).ac_power
        (some current_temp)
        (some (cycle config state ac_power (some current_temp) (some ac_power) true
          now).ac_power)
        true now).decision = some Decision.NoChange ∧
    (cycle config
        (cycle config state ac_power (some current_temp) (some ac_power) true now).state
        (cycle config state ac_power (some current_temp) (some ac_power) true now).ac_power
        (some current_temp)
        (some (cycle config state ac_power (some current_temp) (some ac_power) true
          now).ac_power)
        true now).push_attempted = false := by
  rcases hd : decideAction current_temp config.temperature_on config.temperature_off
      ac_power (is_time_restricted config now) with _ | _ | _
  · have h1 : cycle config state ac_power (some current_temp) (some ac_power) true now =
        { state := { state with power := true }, ac_power := true,
          decision := some Decision.TurnOn, push_attempted := true } := by
      simp [cycle, reconcile, set_ac_state, hd]
    have h2 := decideAction_on_stable current_temp config.temperature_on
      config.temperature_off ac_power (is_time_restricted config now) hband hd
    rw [h1]
    constructor <;> simp [cycle, reconcile, h2]
  · have h1 : cycle config state ac_power (some current_temp) (some ac_power) true now =
        { state := { state with power := false }, ac_power := false,
          decision := some Decision.TurnOff, push_attempted := true } := by
      simp [cycle, reconcile, set_ac_state, hd]
    have h2 := decideAction_off_stable current_temp config.temperature_on
      config.temperature_off ac_power (is_time_restricted config now) hband hd
    rw [h1]
    constructor <;> simp [cycle, reconcile, h2]
  · have h1 : cycle config state ac_power (some current_temp) (some ac_power) true now =
        { state := { state with power := ac_power }, ac_power := ac_power,
          decision := some Decision.NoChange, push_attempted := false } := by
      simp [cycle, reconcile, hd]
    rw [h1]
    constructor <;> simp [cycle, reconcile, hd]

/-- Claim C8 witness: the default configuration band is well formed,
and with reading 25 at 14:00 starting from belief and actuator off the
second cycle decides NoChange and attempts no push. -/
theorem cycle_idempotent_witness :
    default_config.temperature_off ≤ default_config.temperature_on ∧
    ((cycle default_config
        (cycle default_config initial_state false (some 25) (some false) true
          ⟨14, 0⟩).state
        (cycle default_config initial_state false (some 25) (some false) true
          ⟨14, 0⟩).ac_power
        (some 25)
        (some (cycle default_config initial_state false (some 25) (some false) true
          ⟨14, 0⟩).ac_power)
        true ⟨14, 0⟩).decision = some Decision.NoChange ∧
     (cycle default_config
        (cycle default_config initial_state false (some 25) (some false) true
          ⟨14, 0⟩).state
        (cycle default_config initial_state false (some 25) (some false) true
          ⟨14, 0⟩).ac_power
        (some 25)
        (some (cycle default_config initial_state false (some 25) (some false) true
          ⟨14, 0⟩).ac_power)
        true ⟨14, 0⟩).push_attempted = false) :=
  ⟨by norm_num [default_config],
    cycle_idempotent default_config initial_state false 25 ⟨14, 0⟩
      (by norm_num [default_config])⟩

/-- Claim C10: the belief target temperature starts at 22.0 and no part
of a cycle, whatever the fault pattern, decision or push outcome, ever
writes it; a cycle changes at most the power field of the belief. -/
theorem target_temp_invariant :
    initial_state.target_temp = 22 ∧
    (∀ (config : Config) (state : CurrentState) (ac_power : Bool) (sensor : Option ℚ)
        (reported : Option Bool) (push_ok : Bool) (now : Time),
      (cycle config state ac_power sensor reported push_ok now).state.target_temp =
        state.target_temp) := by
  refine ⟨rfl, fun config state ac_power sensor reported push_ok now => ?_⟩
  rcases sensor with _ | current_temp
  · rfl
  · rcases reported with _ | q <;>
      · simp only [cycle]
        split <;> simp [reconcile, set_ac_state] <;> split_ifs <;> rfl
